import Mathlib

/-!
Verification of `src/Tasks/ECRPushImage/helpers/PushImageTaskOperations.ts`
(aws-vsts-tools): the ECR push-image pipeline task.

The TypeScript class `TaskOperations` is a straight-line orchestration over
two external systems: the ECR registry API (`describeRepositories`,
`createRepository`, `getAuthorizationToken`) and the local docker CLI
(`tag`, `login`, `push` subprocesses), plus the agent facilities `tl.which`
and `tl.setVariable`.  We embed it shallowly: every external interaction is
an oracle drawn from an `Env`, and running an operation yields both the
ordered list of external actions it performed (a trace of `Event`s) and an
`Except` result mirroring promise resolution/rejection.
-/

namespace ECRPushImage

/-- An error object thrown by the AWS SDK: its `code` property and the text
`String(err)` that JavaScript string concatenation (`'...' + err`) appends. -/
structure AWSError where
  code : String
  str : String
deriving Repr, DecidableEq

/-- One element of the `authorizationData` array returned by
`ECR.getAuthorizationToken`. -/
structure AuthorizationData where
  authorizationToken : String
  proxyEndpoint : String
deriving Repr, DecidableEq

/-- The response of `ECR.getAuthorizationToken`. -/
structure AuthResponse where
  authorizationData : List AuthorizationData
deriving Repr, DecidableEq

/-- The task parameters consumed by `TaskOperations`
(fields read by `execute` and its helpers). -/
structure TaskParameters where
  imageSource : String
  sourceImageName : String
  sourceImageTag : String
  sourceImageId : String
  repositoryName : String
  pushTag : String
  autoCreateRepository : Bool
  outputVariable : String
deriving Repr, DecidableEq

/-- Modelled from the spec: the sentinel value of `TaskParameters.imageNameSource`
from `PushImageTaskParameters.ts` (not part of the sources given), the constant
that selects the tag-by-name branch of the "tag-by-name-or-by-id" branching.
Its concrete value is never relevant below, only equality with `imageSource`. -/
def TaskParameters.imageNameSource : String := "imagename"

/-- The oracles for every external interaction the task performs.
`which name` is `tl.which(name, true)`: `some path` when the executable is
found, `none` when the lookup throws.  `parseHost s` is `parse(s).host` of
the node `url` module: `none` models a `null` host.  `dockerExec` tells
whether a given docker subprocess exits successfully. -/
structure Env where
  which : String → Option String
  describeRepositories : String → Except AWSError Unit
  createRepository : String → Except AWSError Unit
  getAuthorizationToken : Except AWSError AuthResponse
  b64decode : String → String
  parseHost : String → Option String
  dockerExec : String → String → List (Option String) → Bool

/-- The observable external actions, in the order the task performs them.
`docker path command args` is one subprocess invocation of the located
docker binary; an argument is `none` when the JavaScript value passed was
`undefined`. -/
inductive Event where
  | which (name : String)
  | apiDescribeRepositories (repositoryName : String)
  | apiCreateRepository (repositoryName : String)
  | apiGetAuthorizationToken
  | docker (path : String) (command : String) (args : List (Option String))
  | setVariable (name : String) (value : String)
deriving Repr, DecidableEq

/-- The ways `execute` can reject. -/
inductive TaskError where
  | noDockerExecutable
  | authTokenFailed (msg : String)
  | repositoryTestFailed (msg : String)
  | sdkError (e : AWSError)
  | dockerCommandFailed (command : String)
  | undefinedProxyEndpoint
deriving Repr, DecidableEq

/-- The message of the `Error` surfaced by each rejection (for the errors the
source constructs with an explicit string). -/
def TaskError.message : TaskError → String
  | .noDockerExecutable => "Cannot find docker command line executable"
  | .authTokenFailed m => m
  | .repositoryTestFailed m => m
  | .sdkError e => e.str
  | .dockerCommandFailed c => "docker " ++ c ++ " exited with a non-zero code"
  | .undefinedProxyEndpoint => "TypeError: cannot read proxyEndpoint of undefined"

/-- The effect of one (awaited) step: the external actions it performed, and
its result (`Except.error` mirrors a rejected promise / thrown error). -/
def M (α : Type) : Type := List Event × Except TaskError α

/-- The trace of external actions a step performed. -/
def M.trace {α : Type} (x : M α) : List Event := x.1

/-- The result of a step. -/
def M.result {α : Type} (x : M α) : Except TaskError α := x.2

/-- A step with no external action that returns `a`. -/
def M.pure {α : Type} (a : α) : M α := ([], .ok a)

/-- A step with no external action that throws `e`. -/
def M.fail {α : Type} (e : TaskError) : M α := ([], .error e)

/-- A step that performs exactly the external action `e`. -/
def M.emit (e : Event) : M Unit := ([e], .ok ())

/-- Sequencing: `await x` then continue with `f`; a thrown error aborts the
continuation but keeps the actions already performed. -/
def M.bind {α β : Type} (x : M α) (f : α → M β) : M β :=
  match x with
  | (t, .error e) => (t, .error e)
  | (t, .ok a) => (t ++ (f a).1, (f a).2)

@[simp] theorem M.bind_ok {α β : Type} (t : List Event) (a : α) (f : α → M β) :
    M.bind (t, Except.ok a) f = (t ++ (f a).1, (f a).2) := rfl

@[simp] theorem M.bind_error {α β : Type} (t : List Event) (e : TaskError) (f : α → M β) :
    M.bind (t, Except.error e) f = (t, Except.error e) := rfl

@[simp] theorem M.trace_mk {α : Type} (t : List Event) (r : Except TaskError α) :
    M.trace (t, r) = t := rfl

@[simp] theorem M.result_mk {α : Type} (t : List Event) (r : Except TaskError α) :
    M.result (t, r) = r := rfl

/-- Lines 71-77, `constructTaggedImageName`: JavaScript truthiness of `tag`
is non-emptiness of the string. -/
def constructTaggedImageName (imageName : String) (tag : String) : String :=
  if tag ≠ "" then imageName ++ ":" ++ tag else imageName

/-- Lines 142-151, the `for`/`try`/`break` loop of `locateDockerExecutable`
over the candidate names: `dockerPath` starts out undefined (`none`), a
successful `tl.which` assigns it, a truthy (non-empty) value breaks the
loop, and a throwing `tl.which` leaves it unchanged. -/
def whichLoop (env : Env) : List String → Option String → List Event × Option String
  | [], dockerPath => ([], dockerPath)
  | e :: rest, dockerPath =>
    match env.which e with
    | some v =>
      if v = "" then
        let r := whichLoop env rest (some v)
        (Event.which e :: r.1, r.2)
      else ([Event.which e], some v)
    | none =>
      let r := whichLoop env rest dockerPath
      (Event.which e :: r.1, r.2)

/-- Lines 136-157, `locateDockerExecutable`: try `docker` then `docker.exe`;
after the loop, a falsy `dockerPath` (undefined or empty) throws
`Cannot find docker command line executable`. -/
def locateDockerExecutable (env : Env) : M String :=
  let r := whichLoop env ["docker", "docker.exe"] none
  match r.2 with
  | some v => if v = "" then (r.1, .error .noDockerExecutable) else (r.1, .ok v)
  | none => (r.1, .error .noDockerExecutable)

/-- Lines 79-96, `createRepositoryIfNeeded`: describe the repository; on a
`RepositoryNotFoundException` create it (a failure of the create call
propagates uncaught, as a throw inside the `catch` block); on any other
error throw `Error testing for repository existence: ` + err. -/
def createRepositoryIfNeeded (env : Env) (repository : String) : M Unit :=
  M.bind (M.emit (.apiDescribeRepositories repository)) fun _ =>
    match env.describeRepositories repository with
    | .ok _ => M.pure ()
    | .error err =>
      if err.code = "RepositoryNotFoundException" then
        M.bind (M.emit (.apiCreateRepository repository)) fun _ =>
          match env.createRepository repository with
          | .ok _ => M.pure ()
          | .error e => M.fail (.sdkError e)
      else
        M.fail (.repositoryTestFailed
          ("Error testing for repository existence: " ++ err.str))

/-- Lines 113-121, `getEcrAuthorizationData`: on success return
`response.authorizationData[0]` — `none` when the array is empty, exactly
as the JavaScript index yields `undefined`; on failure wrap the error. -/
def getEcrAuthorizationData (env : Env) : M (Option AuthorizationData) :=
  M.bind (M.emit .apiGetAuthorizationToken) fun _ =>
    match env.getAuthorizationToken with
    | .ok response => M.pure response.authorizationData.head?
    | .error err =>
      M.fail (.authTokenFailed
        ("Failed to obtain authorization token to log in to ECR, error: " ++ err.str))

/-- Lines 123-134, `runDockerCommand`: one subprocess invocation of the
located docker binary; a non-zero exit rejects. -/
def runDockerCommand (env : Env) (dockerPath : String) (command : String)
    (args : List (Option String)) : M Unit :=
  M.bind (M.emit (.docker dockerPath command args)) fun _ =>
    if env.dockerExec dockerPath command args then M.pure ()
    else M.fail (.dockerCommandFailed command)

/-- JavaScript `s.split(c)` for a single-character separator, on the
character list of the string. -/
def jsSplitAux (sep : Char) : List Char → List Char → List (List Char)
  | [], cur => [cur.reverse]
  | c :: cs, cur =>
    if c = sep then cur.reverse :: jsSplitAux sep cs []
    else jsSplitAux sep cs (c :: cur)

/-- JavaScript `s.split(c)` for a single-character separator. -/
def jsSplit (sep : Char) (s : String) : List String :=
  (jsSplitAux sep s.toList []).map List.asString

/-- JavaScript template-literal rendering of a possibly-`null` string. -/
def jsStringOfNullable : Option String → String
  | some s => s
  | none => "null"

/-- Lines 99-100: the argument vector of the `docker login` invocation,
built from `base64.decode(encodedAuthToken).split(':')`; an index past
the end of the array is `undefined`, i.e. `none`. -/
def loginArgs (env : Env) (encodedAuthToken : String) (endpoint : String) :
    List (Option String) :=
  let tokens := jsSplit ':' (env.b64decode encodedAuthToken)
  [some "-u", tokens.get? 0, some "-p", tokens.get? 1, some endpoint]

/-- Lines 98-101, `loginToRegistry`: split the base64-decoded token on `:`
and run `docker login -u tokens[0] -p tokens[1] endpoint`. -/
def loginToRegistry (env : Env) (dockerPath : String) (encodedAuthToken : String)
    (endpoint : String) : M Unit :=
  runDockerCommand env dockerPath "login" (loginArgs env encodedAuthToken endpoint)

/-- Lines 103-106, `tagImage`. -/
def tagImage (env : Env) (dockerPath : String) (sourceImageRef : String)
    (imageTag : String) : M Unit :=
  runDockerCommand env dockerPath "tag" [some sourceImageRef, some imageTag]

/-- Lines 108-111, `pushImageToECR`. -/
def pushImageToECR (env : Env) (dockerPath : String) (imageRef : String) : M Unit :=
  runDockerCommand env dockerPath "push" [some imageRef]

/-- Lines 29-36 of `execute`: the tag-by-name-or-by-id branching computing
`sourceImageRef`. -/
def sourceImageRef (p : TaskParameters) : String :=
  if p.imageSource = TaskParameters.imageNameSource then
    constructTaggedImageName p.sourceImageName p.sourceImageTag
  else p.sourceImageId

/-- Lines 39 and 45-46 of `execute`: the pushed target image reference,
`parse(authData.proxyEndpoint).host` + `/` + the tagged repository name. -/
def targetImageRef (env : Env) (p : TaskParameters)
    (authData : AuthorizationData) : String :=
  jsStringOfNullable (env.parseHost authData.proxyEndpoint) ++ "/" ++
    constructTaggedImageName p.repositoryName p.pushTag

/-- Lines 25-59, `execute`: locate docker, compute the source reference,
obtain the ECR authorization data (dereferencing its `proxyEndpoint`, which
on an `undefined` entry throws), optionally create the repository, tag,
login, push, and finally set the output variable when one was named
(JavaScript truthiness: non-empty). -/
def execute (env : Env) (p : TaskParameters) : M Unit :=
  M.bind (locateDockerExecutable env) fun dockerPath =>
  M.bind (getEcrAuthorizationData env) fun authDataOpt =>
  match authDataOpt with
  | none => M.fail .undefinedProxyEndpoint
  | some authData =>
    M.bind (if p.autoCreateRepository then
        createRepositoryIfNeeded env p.repositoryName
      else M.pure ()) fun _ =>
    M.bind (tagImage env dockerPath (sourceImageRef p) (targetImageRef env p authData)) fun _ =>
    M.bind (loginToRegistry env dockerPath authData.authorizationToken
        authData.proxyEndpoint) fun _ =>
    M.bind (pushImageToECR env dockerPath (targetImageRef env p authData)) fun _ =>
    if p.outputVariable ≠ "" then
      M.emit (.setVariable p.outputVariable (targetImageRef env p authData))
    else M.pure ()

/-! ### Characterization lemmas for the helper operations -/

theorem whichLoop_events (env : Env) :
    ∀ (l : List String) (acc : Option String) (e : Event),
      e ∈ (whichLoop env l acc).1 → ∃ n, e = Event.which n := by
  intro l
  induction l with
  | nil => intro acc e he; simp [whichLoop] at he
  | cons a rest ih =>
    intro acc e he
    simp only [whichLoop] at he
    cases hw : env.which a with
    | some v =>
      rw [hw] at he
      by_cases hv : v = ""
      · simp [hv] at he
        rcases he with h | h
        · exact ⟨a, h⟩
        · exact ih _ _ h
      · simp [hv] at he
        exact ⟨a, he⟩
    | none =>
      rw [hw] at he
      simp at he
      rcases he with h | h
      · exact ⟨a, h⟩
      · exact ih _ _ h

theorem locate_trace_which (env : Env) (e : Event)
    (he : e ∈ (locateDockerExecutable env).trace) : ∃ n, e = Event.which n := by
  rcases hw : whichLoop env ["docker", "docker.exe"] none with ⟨t, r⟩
  have ht : e ∈ t := by
    unfold locateDockerExecutable at he
    rw [hw] at he
    cases r with
    | none => simpa [M.trace] using he
    | some v =>
      by_cases hv : v = "" <;> simp [hv, M.trace] at he <;> exact he
  exact whichLoop_events env ["docker", "docker.exe"] none e (by rw [hw]; exact ht)

theorem locate_first (env : Env) (v : String) (hw : env.which "docker" = some v)
    (hv : v ≠ "") :
    locateDockerExecutable env = ([Event.which "docker"], Except.ok v) := by
  simp [locateDockerExecutable, whichLoop, hw, hv]

theorem locate_second (env : Env) (v : String) (h1 : env.which "docker" = none)
    (h2 : env.which "docker.exe" = some v) (hv : v ≠ "") :
    locateDockerExecutable env =
      ([Event.which "docker", Event.which "docker.exe"], Except.ok v) := by
  simp [locateDockerExecutable, whichLoop, h1, h2, hv]

theorem locate_missing (env : Env) (h1 : env.which "docker" = none)
    (h2 : env.which "docker.exe" = none) :
    locateDockerExecutable env =
      ([Event.which "docker", Event.which "docker.exe"],
        Except.error TaskError.noDockerExecutable) := by
  simp [locateDockerExecutable, whichLoop, h1, h2]

theorem getEcr_ok (env : Env) (resp : AuthResponse)
    (h : env.getAuthorizationToken = Except.ok resp) :
    getEcrAuthorizationData env =
      ([Event.apiGetAuthorizationToken], Except.ok resp.authorizationData.head?) := by
  simp [getEcrAuthorizationData, M.emit, M.bind, M.pure, h]

theorem getEcr_error (env : Env) (err : AWSError)
    (h : env.getAuthorizationToken = Except.error err) :
    getEcrAuthorizationData env =
      ([Event.apiGetAuthorizationToken],
        Except.error (TaskError.authTokenFailed
          ("Failed to obtain authorization token to log in to ECR, error: " ++ err.str))) := by
  simp [getEcrAuthorizationData, M.emit, M.bind, M.fail, h]

theorem getEcr_trace (env : Env) :
    (getEcrAuthorizationData env).trace = [Event.apiGetAuthorizationToken] := by
  cases h : env.getAuthorizationToken with
  | ok resp => rw [getEcr_ok env resp h]; rfl
  | error err => rw [getEcr_error env err h]; rfl

theorem createRepo_exists (env : Env) (repo : String)
    (h : env.describeRepositories repo = Except.ok ()) :
    createRepositoryIfNeeded env repo =
      ([Event.apiDescribeRepositories repo], Except.ok ()) := by
  simp [createRepositoryIfNeeded, M.emit, M.bind, M.pure, h]

theorem createRepo_notFound_ok (env : Env) (repo : String) (err : AWSError)
    (h : env.describeRepositories repo = Except.error err)
    (hc : err.code = "RepositoryNotFoundException")
    (hcr : env.createRepository repo = Except.ok ()) :
    createRepositoryIfNeeded env repo =
      ([Event.apiDescribeRepositories repo, Event.apiCreateRepository repo],
        Except.ok ()) := by
  simp [createRepositoryIfNeeded, M.emit, M.bind, M.pure, h, hc, hcr]

theorem createRepo_notFound_fail (env : Env) (repo : String) (err e2 : AWSError)
    (h : env.describeRepositories repo = Except.error err)
    (hc : err.code = "RepositoryNotFoundException")
    (hcr : env.createRepository repo = Except.error e2) :
    createRepositoryIfNeeded env repo =
      ([Event.apiDescribeRepositories repo, Event.apiCreateRepository repo],
        Except.error (TaskError.sdkError e2)) := by
  simp [createRepositoryIfNeeded, M.emit, M.bind, M.fail, h, hc, hcr]

theorem createRepo_otherError (env : Env) (repo : String) (err : AWSError)
    (h : env.describeRepositories repo = Except.error err)
    (hc : err.code ≠ "RepositoryNotFoundException") :
    createRepositoryIfNeeded env repo =
      ([Event.apiDescribeRepositories repo],
        Except.error (TaskError.repositoryTestFailed
          ("Error testing for repository existence: " ++ err.str))) := by
  simp [createRepositoryIfNeeded, M.emit, M.bind, M.fail, h, hc]

theorem createRepo_trace_events (env : Env) (repo : String) (e : Event)
    (he : e ∈ (createRepositoryIfNeeded env repo).trace) :
    e = Event.apiDescribeRepositories repo ∨ e = Event.apiCreateRepository repo := by
  cases h : env.describeRepositories repo with
  | ok u =>
    cases u
    rw [createRepo_exists env repo h] at he
    simp [M.trace] at he
    exact Or.inl he
  | error err =>
    by_cases hc : err.code = "RepositoryNotFoundException"
    · cases hcr : env.createRepository repo with
      | ok u =>
        cases u
        rw [createRepo_notFound_ok env repo err h hc hcr] at he
        simp [M.trace] at he
        exact he
      | error e2 =>
        rw [createRepo_notFound_fail env repo err e2 h hc hcr] at he
        simp [M.trace] at he
        exact he
    · rw [createRepo_otherError env repo err h hc] at he
      simp [M.trace] at he
      exact Or.inl he

theorem runDocker_ok (env : Env) (dp c : String) (args : List (Option String))
    (h : env.dockerExec dp c args = true) :
    runDockerCommand env dp c args = ([Event.docker dp c args], Except.ok ()) := by
  simp [runDockerCommand, M.emit, M.bind, M.pure, h]

theorem runDocker_fail (env : Env) (dp c : String) (args : List (Option String))
    (h : env.dockerExec dp c args = false) :
    runDockerCommand env dp c args =
      ([Event.docker dp c args], Except.error (TaskError.dockerCommandFailed c)) := by
  simp [runDockerCommand, M.emit, M.bind, M.fail, h]

theorem runDocker_trace (env : Env) (dp c : String) (args : List (Option String)) :
    (runDockerCommand env dp c args).trace = [Event.docker dp c args] := by
  cases h : env.dockerExec dp c args with
  | true => rw [runDocker_ok env dp c args h]; rfl
  | false => rw [runDocker_fail env dp c args h]; rfl

theorem runDocker_trace1 (env : Env) (dp c : String) (args : List (Option String)) :
    (runDockerCommand env dp c args).1 = [Event.docker dp c args] :=
  runDocker_trace env dp c args

theorem getEcr_trace1 (env : Env) :
    (getEcrAuthorizationData env).1 = [Event.apiGetAuthorizationToken] :=
  getEcr_trace env

theorem M.mem_bind {α β : Type} (x : M α) (f : α → M β) (e : Event)
    (he : e ∈ (M.bind x f).1) :
    e ∈ x.1 ∨ ∃ a, x.2 = Except.ok a ∧ e ∈ (f a).1 := by
  rcases x with ⟨t, r⟩
  cases r with
  | error err => simp [M.bind] at he; exact Or.inl he
  | ok a =>
    simp [M.bind] at he
    rcases he with h | h
    · exact Or.inl h
    · exact Or.inr ⟨a, rfl, h⟩

/-- Every event an `execute` run performs, classified: executable lookups,
the authorization-token request (which requires docker to have been
located), and — only after a successful authorization response with a
first entry — the repository calls (only under `autoCreateRepository`),
docker subprocesses (always with the located path), and the output
variable assignment (only when `outputVariable` is non-empty). -/
theorem execute_trace_mem (env : Env) (p : TaskParameters) (e : Event)
    (he : e ∈ (execute env p).trace) :
    (∃ n, e = Event.which n) ∨
    ∃ dp, (locateDockerExecutable env).result = Except.ok dp ∧
      (e = Event.apiGetAuthorizationToken ∨
       ∃ resp ad, env.getAuthorizationToken = Except.ok resp ∧
         resp.authorizationData.head? = some ad ∧
         ((p.autoCreateRepository = true ∧
            (e = Event.apiDescribeRepositories p.repositoryName ∨
             e = Event.apiCreateRepository p.repositoryName)) ∨
          (∃ c args, e = Event.docker dp c args) ∨
          (p.outputVariable ≠ "" ∧
            e = Event.setVariable p.outputVariable (targetImageRef env p ad)))) := by
  unfold execute at he
  rcases M.mem_bind _ _ _ he with h | ⟨dp, hdp, he⟩
  · exact Or.inl (locate_trace_which env e h)
  refine Or.inr ⟨dp, hdp, ?_⟩
  rcases M.mem_bind _ _ _ he with h | ⟨aopt, haopt, he⟩
  · rw [getEcr_trace1] at h
    simp at h
    exact Or.inl h
  cases aopt with
  | none => simp [M.fail] at he
  | some ad =>
    have hauth : ∃ resp, env.getAuthorizationToken = Except.ok resp ∧
        resp.authorizationData.head? = some ad := by
      cases hga : env.getAuthorizationToken with
      | error err => rw [getEcr_error env err hga] at haopt; simp [M.result] at haopt
      | ok resp =>
        rw [getEcr_ok env resp hga] at haopt
        simp [M.result] at haopt
        exact ⟨resp, rfl, haopt⟩
    rcases hauth with ⟨resp, hga, hhd⟩
    refine Or.inr ⟨resp, ad, hga, hhd, ?_⟩
    rcases M.mem_bind _ _ _ he with h | ⟨u, _, he⟩
    · cases hac : p.autoCreateRepository with
      | false => rw [hac] at h; simp [M.pure] at h
      | true =>
        rw [hac] at h
        simp only [if_pos rfl] at h
        exact Or.inl ⟨rfl, createRepo_trace_events env p.repositoryName e h⟩
    rcases M.mem_bind _ _ _ he with h | ⟨u2, _, he⟩
    · rw [tagImage, runDocker_trace1] at h
      simp at h
      exact Or.inr (Or.inl ⟨"tag", _, h⟩)
    rcases M.mem_bind _ _ _ he with h | ⟨u3, _, he⟩
    · rw [loginToRegistry, runDocker_trace1] at h
      simp at h
      exact Or.inr (Or.inl ⟨"login", _, h⟩)
    rcases M.mem_bind _ _ _ he with h | ⟨u4, _, he⟩
    · rw [pushImageToECR, runDocker_trace1] at h
      simp at h
      exact Or.inr (Or.inl ⟨"push", _, h⟩)
    by_cases hov : p.outputVariable = ""
    · simp [hov, M.pure] at he
    · simp [hov, M.emit] at he
      exact Or.inr (Or.inr ⟨hov, he⟩)

theorem M.result_bind_ok {α β : Type} (x : M α) (f : α → M β) (b : β)
    (h : (M.bind x f).2 = Except.ok b) :
    ∃ a, x.2 = Except.ok a ∧ (f a).2 = Except.ok b := by
  rcases x with ⟨t, r⟩
  cases r with
  | error err => simp [M.bind] at h
  | ok a =>
    simp [M.bind] at h
    exact ⟨a, rfl, h⟩

/-- Inversion of a successful run: every stage's oracle must have
cooperated. -/
theorem execute_ok_inv (env : Env) (p : TaskParameters)
    (h : (execute env p).result = Except.ok ()) :
    ∃ (dp : String) (resp : AuthResponse) (ad : AuthorizationData),
      (locateDockerExecutable env).result = Except.ok dp ∧
      env.getAuthorizationToken = Except.ok resp ∧
      resp.authorizationData.head? = some ad ∧
      (if p.autoCreateRepository then
          createRepositoryIfNeeded env p.repositoryName
        else M.pure ()).result = Except.ok () ∧
      env.dockerExec dp "tag"
        [some (sourceImageRef p), some (targetImageRef env p ad)] = true ∧
      env.dockerExec dp "login"
        (loginArgs env ad.authorizationToken ad.proxyEndpoint) = true ∧
      env.dockerExec dp "push" [some (targetImageRef env p ad)] = true := by
  unfold execute at h
  obtain ⟨dp, hdp, h⟩ := M.result_bind_ok _ _ _ h
  obtain ⟨aopt, haopt, h⟩ := M.result_bind_ok _ _ _ h
  cases aopt with
  | none => simp [M.fail] at h
  | some ad =>
    obtain ⟨resp, hga, hhd⟩ : ∃ resp, env.getAuthorizationToken = Except.ok resp ∧
        resp.authorizationData.head? = some ad := by
      cases hga2 : env.getAuthorizationToken with
      | error err => rw [getEcr_error env err hga2] at haopt; simp at haopt
      | ok resp =>
        rw [getEcr_ok env resp hga2] at haopt
        simp at haopt
        exact ⟨resp, rfl, haopt⟩
    obtain ⟨u1, hcru, h⟩ := M.result_bind_ok _ _ _ h
    cases u1
    obtain ⟨u2, hdtu, h⟩ := M.result_bind_ok _ _ _ h
    cases u2
    obtain ⟨u3, hdlu, h⟩ := M.result_bind_ok _ _ _ h
    cases u3
    obtain ⟨u4, hdpu, h⟩ := M.result_bind_ok _ _ _ h
    cases u4
    have hdt : env.dockerExec dp "tag"
        [some (sourceImageRef p), some (targetImageRef env p ad)] = true := by
      cases hx : env.dockerExec dp "tag"
          [some (sourceImageRef p), some (targetImageRef env p ad)] with
      | true => rfl
      | false => rw [tagImage, runDocker_fail env dp _ _ hx] at hdtu; simp at hdtu
    have hdl : env.dockerExec dp "login"
        (loginArgs env ad.authorizationToken ad.proxyEndpoint) = true := by
      cases hx : env.dockerExec dp "login"
          (loginArgs env ad.authorizationToken ad.proxyEndpoint) with
      | true => rfl
      | false => rw [loginToRegistry, runDocker_fail env dp _ _ hx] at hdlu; simp at hdlu
    have hdp2 : env.dockerExec dp "push" [some (targetImageRef env p ad)] = true := by
      cases hx : env.dockerExec dp "push" [some (targetImageRef env p ad)] with
      | true => rfl
      | false => rw [pushImageToECR, runDocker_fail env dp _ _ hx] at hdpu; simp at hdpu
    exact ⟨dp, resp, ad, hdp, hga, hhd, hcru, hdt, hdl, hdp2⟩

/-- Forward computation of a run through all stages, given cooperating
oracles: the full trace, in order, and the successful result. -/
theorem execute_run (env : Env) (p : TaskParameters) (dp : String)
    (resp : AuthResponse) (ad : AuthorizationData) (tl tc : List Event)
    (hl : locateDockerExecutable env = (tl, Except.ok dp))
    (hga : env.getAuthorizationToken = Except.ok resp)
    (hhd : resp.authorizationData.head? = some ad)
    (hcr : (if p.autoCreateRepository then
        createRepositoryIfNeeded env p.repositoryName
      else M.pure ()) = (tc, Except.ok ()))
    (hdt : env.dockerExec dp "tag"
      [some (sourceImageRef p), some (targetImageRef env p ad)] = true)
    (hdl : env.dockerExec dp "login"
      (loginArgs env ad.authorizationToken ad.proxyEndpoint) = true)
    (hdp2 : env.dockerExec dp "push" [some (targetImageRef env p ad)] = true) :
    execute env p =
      (tl ++
        Event.apiGetAuthorizationToken ::
        (tc ++
         Event.docker dp "tag"
           [some (sourceImageRef p), some (targetImageRef env p ad)] ::
         Event.docker dp "login"
           (loginArgs env ad.authorizationToken ad.proxyEndpoint) ::
         Event.docker dp "push" [some (targetImageRef env p ad)] ::
         (if p.outputVariable ≠ "" then
            [Event.setVariable p.outputVariable (targetImageRef env p ad)]
          else [])),
        Except.ok ()) := by
  unfold execute
  rw [hl]
  simp only [M.bind_ok]
  rw [getEcr_ok env resp hga, hhd]
  simp only [M.bind_ok]
  rw [hcr]
  simp only [M.bind_ok]
  rw [tagImage, runDocker_ok env dp _ _ hdt]
  simp only [M.bind_ok]
  rw [loginToRegistry, runDocker_ok env dp _ _ hdl]
  simp only [M.bind_ok]
  rw [pushImageToECR, runDocker_ok env dp _ _ hdp2]
  simp only [M.bind_ok]
  by_cases hov : p.outputVariable = "" <;>
    simp [hov, M.emit, M.pure]

/-- Is this event a registry API request? -/
def Event.isApi : Event → Bool
  | .apiDescribeRepositories _ => true
  | .apiCreateRepository _ => true
  | .apiGetAuthorizationToken => true
  | _ => false

/-- Is this event a docker subprocess invocation? -/
def Event.isDocker : Event → Bool
  | .docker _ _ _ => true
  | _ => false

/-- Is this event a pipeline-variable assignment? -/
def Event.isSetVariable : Event → Bool
  | .setVariable _ _ => true
  | _ => false

/-- Combined success characterization: the cooperating-oracle data and the
full run. -/
theorem execute_ok_shape (env : Env) (p : TaskParameters)
    (h : (execute env p).result = Except.ok ()) :
    ∃ (dp : String) (resp : AuthResponse) (ad : AuthorizationData)
      (tl tc : List Event),
      locateDockerExecutable env = (tl, Except.ok dp) ∧
      env.getAuthorizationToken = Except.ok resp ∧
      resp.authorizationData.head? = some ad ∧
      (if p.autoCreateRepository then
          createRepositoryIfNeeded env p.repositoryName
        else M.pure ()) = (tc, Except.ok ()) ∧
      execute env p =
        (tl ++
          Event.apiGetAuthorizationToken ::
          (tc ++
           Event.docker dp "tag"
             [some (sourceImageRef p), some (targetImageRef env p ad)] ::
           Event.docker dp "login"
             (loginArgs env ad.authorizationToken ad.proxyEndpoint) ::
           Event.docker dp "push" [some (targetImageRef env p ad)] ::
           (if p.outputVariable ≠ "" then
              [Event.setVariable p.outputVariable (targetImageRef env p ad)]
            else [])),
          Except.ok ()) := by
  obtain ⟨dp, resp, ad, hdp, hga, hhd, hcru, hdt, hdl, hdp2⟩ := execute_ok_inv env p h
  rcases hl : locateDockerExecutable env with ⟨tl, rl⟩
  rw [hl] at hdp
  simp only [M.result_mk] at hdp
  subst hdp
  rcases hcr : (if p.autoCreateRepository then
      createRepositoryIfNeeded env p.repositoryName
    else M.pure ()) with ⟨tc, rc⟩
  rw [hcr] at hcru
  simp only [M.result_mk] at hcru
  subst hcru
  exact ⟨dp, resp, ad, tl, tc, rfl, hga, hhd, rfl,
    execute_run env p dp resp ad tl tc hl hga hhd hcr hdt hdl hdp2⟩

/-! ### JavaScript `split(':')` -/

theorem jsSplitAux_head (sep : Char) :
    ∀ (cs cur : List Char),
      (jsSplitAux sep cs cur).head? =
        some (cur.reverse ++ cs.takeWhile (fun c => c != sep)) := by
  intro cs
  induction cs with
  | nil => intro cur; simp [jsSplitAux]
  | cons c cs ih =>
    intro cur
    by_cases hc : c = sep
    · simp [jsSplitAux, hc]
    · simp [jsSplitAux, hc, ih, List.takeWhile_cons]

theorem jsSplitAux_get1 (sep : Char) :
    ∀ (cs cur : List Char),
      (jsSplitAux sep cs cur).get? 1 =
        (match cs.dropWhile (fun c => c != sep) with
         | [] => none
         | _ :: rest => some (rest.takeWhile (fun c => c != sep))) := by
  intro cs
  induction cs with
  | nil => intro cur; simp [jsSplitAux]
  | cons c cs ih =>
    intro cur
    by_cases hc : c = sep
    · have hhead := jsSplitAux_head sep cs []
      simp [jsSplitAux, hc, List.dropWhile_cons]
      rw [← List.get?_eq_getElem?, List.get?_zero, hhead]
      simp
    · simp [jsSplitAux, hc, List.dropWhile_cons]
      rw [← List.get?_eq_getElem?]
      exact ih (c :: cur)

/-- The segment of a string strictly before its first `:` (the whole string
when it has no `:`). -/
def beforeFirstColon (s : String) : String :=
  (s.toList.takeWhile (fun c => c != ':')).asString

/-- The segment of a string strictly between its first and second `:`
(up to the end when there is no second `:`), or `none` when the string has
no `:` at all. -/
def betweenFirstAndSecondColon (s : String) : Option String :=
  match s.toList.dropWhile (fun c => c != ':') with
  | [] => none
  | _ :: rest => some ((rest.takeWhile (fun c => c != ':')).asString)

theorem jsSplit_colon_get0 (s : String) :
    (jsSplit ':' s).get? 0 = some (beforeFirstColon s) := by
  unfold jsSplit beforeFirstColon
  rw [List.get?_eq_getElem?, List.getElem?_map, ← List.get?_eq_getElem?,
    List.get?_zero, jsSplitAux_head]
  simp

theorem jsSplit_colon_get1 (s : String) :
    (jsSplit ':' s).get? 1 = betweenFirstAndSecondColon s := by
  unfold jsSplit betweenFirstAndSecondColon
  rw [List.get?_eq_getElem?, List.getElem?_map, ← List.get?_eq_getElem?,
    jsSplitAux_get1]
  cases s.toList.dropWhile (fun c => c != ':') with
  | nil => rfl
  | cons a rest => rfl

/-! ### The claims -/

/-- C2: tag-by-name-or-by-id branching: when `imageSource` equals the
image-name source the source image reference combines `sourceImageName`
with `sourceImageTag`; otherwise it is exactly `sourceImageId`, and
`sourceImageName` / `sourceImageTag` are not consulted (changing them
cannot change the reference). -/
theorem claim_tag_by_name_or_by_id (p : TaskParameters) :
    (p.imageSource = TaskParameters.imageNameSource →
      sourceImageRef p = constructTaggedImageName p.sourceImageName p.sourceImageTag) ∧
    (p.imageSource ≠ TaskParameters.imageNameSource →
      sourceImageRef p = p.sourceImageId ∧
      ∀ n t, sourceImageRef
        { p with sourceImageName := n, sourceImageTag := t } = p.sourceImageId) := by
  constructor
  · intro h
    simp [sourceImageRef, h]
  · intro h
    exact ⟨by simp [sourceImageRef, h], fun n t => by simp [sourceImageRef, h]⟩

/-- C8: `constructTaggedImageName` appends `:tag` to the name exactly when
the tag is non-empty; in particular an empty `pushTag` yields a target
reference with no `:` suffix after the repository name. -/
theorem claim_construct_tagged_image_name (imageName tag : String) :
    (tag ≠ "" → constructTaggedImageName imageName tag = imageName ++ ":" ++ tag) ∧
    (tag = "" → constructTaggedImageName imageName tag = imageName) ∧
    (∀ (env : Env) (p : TaskParameters) (ad : AuthorizationData), p.pushTag = "" →
      targetImageRef env p ad =
        jsStringOfNullable (env.parseHost ad.proxyEndpoint) ++ "/" ++ p.repositoryName) := by
  refine ⟨fun h => by simp [constructTaggedImageName, h],
          fun h => by simp [constructTaggedImageName, h],
          fun env p ad h => by simp [targetImageRef, constructTaggedImageName, h]⟩

/-- C3: create-repository-if-missing: the repository is queried first; the
create call is issued iff the query failed with code
`RepositoryNotFoundException`; any other query error aborts with the
message `Error testing for repository existence: ` + err and performs no
create call. -/
theorem claim_create_repository_if_missing (env : Env) (repo : String) :
    ((createRepositoryIfNeeded env repo).trace.head? =
      some (Event.apiDescribeRepositories repo)) ∧
    ((Event.apiCreateRepository repo ∈ (createRepositoryIfNeeded env repo).trace) ↔
      ∃ err, env.describeRepositories repo = Except.error err ∧
        err.code = "RepositoryNotFoundException") ∧
    (∀ err, env.describeRepositories repo = Except.error err →
      err.code ≠ "RepositoryNotFoundException" →
      createRepositoryIfNeeded env repo =
        ([Event.apiDescribeRepositories repo],
          Except.error (TaskError.repositoryTestFailed
            ("Error testing for repository existence: " ++ err.str)))) := by
  refine ⟨?_, ⟨?_, ?_⟩, ?_⟩
  · cases hd : env.describeRepositories repo with
    | ok u =>
      cases u
      rw [createRepo_exists env repo hd]
      rfl
    | error err =>
      by_cases hc : err.code = "RepositoryNotFoundException"
      · cases hcr : env.createRepository repo with
        | ok u =>
          cases u
          rw [createRepo_notFound_ok env repo err hd hc hcr]
          rfl
        | error e2 =>
          rw [createRepo_notFound_fail env repo err e2 hd hc hcr]
          rfl
      · rw [createRepo_otherError env repo err hd hc]
        rfl
  · intro hmem
    cases hd : env.describeRepositories repo with
    | ok u =>
      cases u
      rw [createRepo_exists env repo hd] at hmem
      simp [M.trace] at hmem
    | error err =>
      by_cases hc : err.code = "RepositoryNotFoundException"
      · exact ⟨err, rfl, hc⟩
      · rw [createRepo_otherError env repo err hd hc] at hmem
        simp [M.trace] at hmem
  · rintro ⟨err, hd, hc⟩
    cases hcr : env.createRepository repo with
    | ok u =>
      cases u
      rw [createRepo_notFound_ok env repo err hd hc hcr]
      simp [M.trace]
    | error e2 =>
      rw [createRepo_notFound_fail env repo err e2 hd hc hcr]
      simp [M.trace]
  · intro err hd hc
    exact createRepo_otherError env repo err hd hc

/-- C10: `getEcrAuthorizationData` returns element 0 of `authorizationData`
with no emptiness check (an empty array yields the `undefined` entry);
dereferencing that entry's `proxyEndpoint` then crashes `execute`, so a
successful run requires a first authorization entry. -/
theorem claim_auth_data_first_element (env : Env) :
    (∀ resp, env.getAuthorizationToken = Except.ok resp →
      (getEcrAuthorizationData env).result = Except.ok resp.authorizationData.head?) ∧
    (∀ (p : TaskParameters) (resp : AuthResponse) (dp : String),
      env.getAuthorizationToken = Except.ok resp →
      resp.authorizationData = [] →
      (locateDockerExecutable env).result = Except.ok dp →
      (execute env p).result = Except.error TaskError.undefinedProxyEndpoint) ∧
    (∀ p : TaskParameters, (execute env p).result = Except.ok () →
      ∃ resp ad, env.getAuthorizationToken = Except.ok resp ∧
        resp.authorizationData.head? = some ad) := by
  refine ⟨?_, ?_, ?_⟩
  · intro resp h
    rw [getEcr_ok env resp h]
    rfl
  · intro p resp dp hga hempty hdp
    rcases hl : locateDockerExecutable env with ⟨tl, rl⟩
    rw [hl] at hdp
    simp only [M.result_mk] at hdp
    subst hdp
    unfold execute
    rw [hl]
    simp only [M.bind_ok]
    rw [getEcr_ok env resp hga, hempty]
    simp [M.bind, M.fail]
  · intro p h
    obtain ⟨dp, resp, ad, _, hga, hhd, _⟩ := execute_ok_inv env p h
    exact ⟨resp, ad, hga, hhd⟩

/-- C9: the registry login subprocess receives as username the segment of
the base64-decoded token before the first `:` and as password the segment
between the first and second `:`; a decoded token with no `:` leaves the
password argument `undefined`. -/
theorem claim_login_credentials (env : Env) (dockerPath token endpoint : String) :
    (loginToRegistry env dockerPath token endpoint).trace =
      [Event.docker dockerPath "login"
        [some "-u", some (beforeFirstColon (env.b64decode token)), some "-p",
         betweenFirstAndSecondColon (env.b64decode token), some endpoint]] ∧
    (':' ∉ (env.b64decode token).toList →
      betweenFirstAndSecondColon (env.b64decode token) = none) := by
  constructor
  · rw [loginToRegistry, runDocker_trace]
    have hargs : loginArgs env token endpoint =
        [some "-u", (jsSplit ':' (env.b64decode token)).get? 0, some "-p",
         (jsSplit ':' (env.b64decode token)).get? 1, some endpoint] := rfl
    rw [hargs, jsSplit_colon_get0, jsSplit_colon_get1]
  · intro hx
    unfold betweenFirstAndSecondColon
    have hnil : (env.b64decode token).toList.dropWhile (fun c => c != ':') = [] := by
      rw [List.dropWhile_eq_nil_iff]
      intro x hxl
      rw [bne_iff_ne]
      intro hxe
      exact hx (hxe ▸ hxl)
    rw [hnil]

/-- C1: on every successful run the external actions happen in order: the
authorization-token request to the registry, then (only under
`autoCreateRepository`) the repository query/creation calls, then the
`tag` subprocess, then the `push` subprocess (with the registry `login`
subprocess in between); each step completes before the next starts, and
only executable lookups precede the token request. -/
theorem claim_execute_action_order (env : Env) (p : TaskParameters)
    (h : (execute env p).result = Except.ok ()) :
    ∃ (pre tCreate tOut : List Event) (dp sref tref : String)
      (largs : List (Option String)),
      (execute env p).trace =
        pre ++ Event.apiGetAuthorizationToken ::
          (tCreate ++
           Event.docker dp "tag" [some sref, some tref] ::
           Event.docker dp "login" largs ::
           Event.docker dp "push" [some tref] :: tOut) ∧
      (∀ e ∈ pre, ∃ n, e = Event.which n) ∧
      (∀ e ∈ tCreate, e = Event.apiDescribeRepositories p.repositoryName ∨
        e = Event.apiCreateRepository p.repositoryName) ∧
      (p.autoCreateRepository = false → tCreate = []) ∧
      (∀ e ∈ tOut, ∃ n v, e = Event.setVariable n v) := by
  obtain ⟨dp, resp, ad, tl, tc, hl, hga, hhd, hcr, hrun⟩ := execute_ok_shape env p h
  refine ⟨tl, tc,
    (if p.outputVariable ≠ "" then
      [Event.setVariable p.outputVariable (targetImageRef env p ad)]
     else []),
    dp, sourceImageRef p, targetImageRef env p ad,
    loginArgs env ad.authorizationToken ad.proxyEndpoint, ?_, ?_, ?_, ?_, ?_⟩
  · rw [hrun]
    rfl
  · intro e he
    exact locate_trace_which env e (by rw [hl]; exact he)
  · intro e he
    cases hac : p.autoCreateRepository with
    | true =>
      rw [hac] at hcr
      simp only [if_true] at hcr
      exact createRepo_trace_events env p.repositoryName e (by rw [hcr]; exact he)
    | false =>
      rw [hac] at hcr
      simp only [if_false, Bool.false_eq_true, M.pure] at hcr
      injection hcr with h1 h2
      rw [← h1] at he
      simp at he
  · intro hacF
    rw [hacF] at hcr
    simp only [if_false, Bool.false_eq_true, M.pure] at hcr
    injection hcr with h1 h2
    exact h1.symm
  · intro e he
    by_cases hov : p.outputVariable = ""
    · simp [hov] at he
    · simp [hov] at he
      exact ⟨p.outputVariable, targetImageRef env p ad, he⟩

/-- C4: when `autoCreateRepository` is not set, the only registry API call
an `execute` run can make is the authorization-token request: every API
event in the trace is `apiGetAuthorizationToken`. -/
theorem claim_repository_calls_need_flag (env : Env) (p : TaskParameters)
    (hac : p.autoCreateRepository = false) :
    ∀ e ∈ (execute env p).trace, e.isApi = true → e = Event.apiGetAuthorizationToken := by
  intro e he hapi
  rcases execute_trace_mem env p e he with ⟨n, rfl⟩ | ⟨dp, _, hcase⟩
  · simp [Event.isApi] at hapi
  rcases hcase with rfl | ⟨resp, ad, _, _, hcase⟩
  · rfl
  rcases hcase with ⟨hacT, _⟩ | ⟨c, args, rfl⟩ | ⟨_, rfl⟩
  · rw [hac] at hacT
    exact absurd hacT (by simp)
  · simp [Event.isApi] at hapi
  · simp [Event.isApi] at hapi

/-- C5: a successful run sets exactly one pipeline variable — the named
`outputVariable`, holding the pushed target reference
`host/repositoryName[:pushTag]` — when `outputVariable` is non-empty, and
sets none when it is empty. -/
theorem claim_output_variable (env : Env) (p : TaskParameters)
    (resp : AuthResponse) (ad : AuthorizationData) (host : String)
    (h : (execute env p).result = Except.ok ())
    (hga : env.getAuthorizationToken = Except.ok resp)
    (hhd : resp.authorizationData.head? = some ad)
    (hhost : env.parseHost ad.proxyEndpoint = some host) :
    (execute env p).trace.filter Event.isSetVariable =
      (if p.outputVariable ≠ "" then
        [Event.setVariable p.outputVariable
          (if p.pushTag ≠ "" then
            host ++ "/" ++ p.repositoryName ++ ":" ++ p.pushTag
           else host ++ "/" ++ p.repositoryName)]
       else []) := by
  obtain ⟨dp, resp2, ad2, tl, tc, hl, hga2, hhd2, hcr, hrun⟩ := execute_ok_shape env p h
  rw [hga] at hga2
  injection hga2 with hr
  subst hr
  rw [hhd] at hhd2
  injection hhd2 with ha
  subst ha
  have htl : tl.filter Event.isSetVariable = [] := by
    rw [List.filter_eq_nil_iff]
    intro a ha
    obtain ⟨n, rfl⟩ := locate_trace_which env a (by rw [hl]; exact ha)
    simp [Event.isSetVariable]
  have htc : tc.filter Event.isSetVariable = [] := by
    rw [List.filter_eq_nil_iff]
    intro a ha
    cases hac : p.autoCreateRepository with
    | true =>
      rw [hac] at hcr
      simp only [if_true] at hcr
      rcases createRepo_trace_events env p.repositoryName a (by rw [hcr]; exact ha) with
        rfl | rfl <;> simp [Event.isSetVariable]
    | false =>
      rw [hac] at hcr
      simp only [if_false, Bool.false_eq_true, M.pure] at hcr
      injection hcr with h1 h2
      rw [← h1] at ha
      simp at ha
  have hval : targetImageRef env p ad =
      (if p.pushTag ≠ "" then
        host ++ "/" ++ p.repositoryName ++ ":" ++ p.pushTag
       else host ++ "/" ++ p.repositoryName) := by
    unfold targetImageRef constructTaggedImageName jsStringOfNullable
    rw [hhost]
    by_cases hpt : p.pushTag = "" <;> simp [hpt, String.append_assoc]
  rw [hrun]
  show (tl ++ Event.apiGetAuthorizationToken ::
      (tc ++ Event.docker dp "tag" [some (sourceImageRef p), some (targetImageRef env p ad)] ::
       Event.docker dp "login" (loginArgs env ad.authorizationToken ad.proxyEndpoint) ::
       Event.docker dp "push" [some (targetImageRef env p ad)] ::
       (if p.outputVariable ≠ "" then
          [Event.setVariable p.outputVariable (targetImageRef env p ad)]
        else []))).filter Event.isSetVariable = _
  rw [List.filter_append, htl, List.filter_cons, List.filter_append, htc]
  by_cases hov : p.outputVariable = "" <;>
    simp [hov, Event.isSetVariable, hval]

/-- C6: if the authorization-token request fails, no `tag`, `login` or
`push` subprocess is ever invoked, and (provided the docker executable was
located, i.e. the request was actually reached) `execute` rejects with an
error whose message begins
`Failed to obtain authorization token to log in to ECR, error: `. -/
theorem claim_auth_failure_aborts (env : Env) (p : TaskParameters) (err : AWSError)
    (hga : env.getAuthorizationToken = Except.error err) :
    (∀ e ∈ (execute env p).trace, e.isDocker = false) ∧
    (∀ dp, (locateDockerExecutable env).result = Except.ok dp →
      ∃ e2, (execute env p).result = Except.error e2 ∧
        e2.message =
          "Failed to obtain authorization token to log in to ECR, error: " ++ err.str) := by
  constructor
  · intro e he
    rcases execute_trace_mem env p e he with ⟨n, rfl⟩ | ⟨dp, _, hcase⟩
    · rfl
    rcases hcase with rfl | ⟨resp, ad, hga2, _, _⟩
    · rfl
    · rw [hga] at hga2
      exact absurd hga2 (by simp)
  · intro dp hdp
    rcases hl : locateDockerExecutable env with ⟨tl, rl⟩
    rw [hl] at hdp
    simp only [M.result_mk] at hdp
    subst hdp
    refine ⟨TaskError.authTokenFailed
      ("Failed to obtain authorization token to log in to ECR, error: " ++ err.str), ?_, rfl⟩
    unfold execute
    rw [hl]
    simp only [M.bind_ok]
    rw [getEcr_error env err hga]
    simp [M.bind]

/-- C7: the docker executable is searched for under `docker` then
`docker.exe`, the first (truthy) hit is used as the path of every docker
subprocess of the run, and if both lookups fail the task rejects with
`Cannot find docker command line executable` after performing only the two
lookups — no registry API request and no subprocess. -/
theorem claim_locate_docker_executable (env : Env) :
    (∀ v, env.which "docker" = some v → v ≠ "" →
      locateDockerExecutable env = ([Event.which "docker"], Except.ok v) ∧
      (∀ (p : TaskParameters) (e : Event) (path c : String) (args : List (Option String)),
        e ∈ (execute env p).trace → e = Event.docker path c args → path = v)) ∧
    (∀ v, env.which "docker" = none → env.which "docker.exe" = some v → v ≠ "" →
      locateDockerExecutable env =
        ([Event.which "docker", Event.which "docker.exe"], Except.ok v) ∧
      (∀ (p : TaskParameters) (e : Event) (path c : String) (args : List (Option String)),
        e ∈ (execute env p).trace → e = Event.docker path c args → path = v)) ∧
    (env.which "docker" = none → env.which "docker.exe" = none →
      ∀ p : TaskParameters, execute env p =
        ([Event.which "docker", Event.which "docker.exe"],
          Except.error TaskError.noDockerExecutable)) ∧
    TaskError.message TaskError.noDockerExecutable =
      "Cannot find docker command line executable" := by
  refine ⟨?_, ?_, ?_, rfl⟩
  · intro v hw hv
    have hloc := locate_first env v hw hv
    refine ⟨hloc, ?_⟩
    intro p e path c args he hedocker
    rcases execute_trace_mem env p e he with ⟨n, heq⟩ | ⟨dp, hdp, hcase⟩
    · rw [heq] at hedocker
      simp at hedocker
    rw [hloc] at hdp
    simp only [M.result_mk] at hdp
    injection hdp with hdv
    subst hdv
    rcases hcase with rfl | ⟨resp, ad, _, _, hcase⟩
    · simp at hedocker
    rcases hcase with ⟨_, rfl | rfl⟩ | ⟨c2, args2, rfl⟩ | ⟨_, rfl⟩
    · simp at hedocker
    · simp at hedocker
    · injection hedocker.symm with h1 h2 h3
    · simp at hedocker
  · intro v h1 h2 hv
    have hloc := locate_second env v h1 h2 hv
    refine ⟨hloc, ?_⟩
    intro p e path c args he hedocker
    rcases execute_trace_mem env p e he with ⟨n, heq⟩ | ⟨dp, hdp, hcase⟩
    · rw [heq] at hedocker
      simp at hedocker
    rw [hloc] at hdp
    simp only [M.result_mk] at hdp
    injection hdp with hdv
    subst hdv
    rcases hcase with rfl | ⟨resp, ad, _, _, hcase⟩
    · simp at hedocker
    rcases hcase with ⟨_, rfl | rfl⟩ | ⟨c2, args2, rfl⟩ | ⟨_, rfl⟩
    · simp at hedocker
    · simp at hedocker
    · injection hedocker.symm with h1 h2 h3
    · simp at hedocker
  · intro h1 h2 p
    unfold execute
    rw [locate_missing env h1 h2]
    simp [M.bind]

/-! ### Concrete fixtures for the witnesses -/

/-- A concrete authorization entry. -/
def sampleAuthData : AuthorizationData :=
  { authorizationToken := "QVdTOnNlY3JldHBhc3M="
    proxyEndpoint := "https://123456789012.dkr.ecr.us-east-1.amazonaws.com" }

/-- An environment in which every oracle cooperates and the repository is
initially missing. -/
def sampleEnv : Env :=
  { which := fun n => if n = "docker" then some "/usr/bin/docker" else none
    describeRepositories := fun _ =>
      Except.error { code := "RepositoryNotFoundException"
                     str := "RepositoryNotFoundException: repository does not exist" }
    createRepository := fun _ => Except.ok ()
    getAuthorizationToken := Except.ok { authorizationData := [sampleAuthData] }
    b64decode := fun _ => "AWS:secretpass"
    parseHost := fun _ => some "123456789012.dkr.ecr.us-east-1.amazonaws.com"
    dockerExec := fun _ _ _ => true }

/-- Concrete task parameters using the image-name source. -/
def sampleParams : TaskParameters :=
  { imageSource := TaskParameters.imageNameSource
    sourceImageName := "myimage"
    sourceImageTag := "latest"
    sourceImageId := "sha256"
    repositoryName := "myrepo"
    pushTag := "v1"
    autoCreateRepository := true
    outputVariable := "imageRef" }

/-- The same parameters with `autoCreateRepository` unset. -/
def sampleParamsNoCreate : TaskParameters :=
  { sampleParams with autoCreateRepository := false }

/-- An environment whose repository query fails with a non-not-found code. -/
def sampleEnvDenied : Env :=
  { sampleEnv with
    describeRepositories := fun _ =>
      Except.error ({ code := "AccessDeniedException"
                      str := "AccessDeniedException: not allowed" } : AWSError) }

/-- An environment whose authorization-token request fails. -/
def sampleEnvAuthFail : Env :=
  { sampleEnv with
    getAuthorizationToken :=
      Except.error ({ code := "ServerException", str := "ServerException: boom" } : AWSError) }

/-- An environment whose authorization response carries no entries. -/
def sampleEnvEmptyAuth : Env :=
  { sampleEnv with
    getAuthorizationToken :=
      Except.ok ({ authorizationData := [] } : AuthResponse) }

/-- An environment whose decoded token contains no colon. -/
def sampleEnvNoColon : Env :=
  { sampleEnv with b64decode := fun _ => "AWSnocolon" }

/-! ### Witnesses -/

/-- Witness for C1 at a concrete successful run. -/
theorem claim_execute_action_order_witness :
    (execute sampleEnv sampleParams).result = Except.ok () ∧
    (∃ (pre tCreate tOut : List Event) (dp sref tref : String)
      (largs : List (Option String)),
      (execute sampleEnv sampleParams).trace =
        pre ++ Event.apiGetAuthorizationToken ::
          (tCreate ++
           Event.docker dp "tag" [some sref, some tref] ::
           Event.docker dp "login" largs ::
           Event.docker dp "push" [some tref] :: tOut) ∧
      (∀ e ∈ pre, ∃ n, e = Event.which n) ∧
      (∀ e ∈ tCreate, e = Event.apiDescribeRepositories sampleParams.repositoryName ∨
        e = Event.apiCreateRepository sampleParams.repositoryName) ∧
      (sampleParams.autoCreateRepository = false → tCreate = []) ∧
      (∀ e ∈ tOut, ∃ n v, e = Event.setVariable n v)) :=
  ⟨by rfl, claim_execute_action_order sampleEnv sampleParams (by rfl)⟩

/-- Witness for C2 on the image-name branch. -/
theorem claim_tag_by_name_or_by_id_witness :
    sampleParams.imageSource = TaskParameters.imageNameSource ∧
    sourceImageRef sampleParams =
      constructTaggedImageName sampleParams.sourceImageName sampleParams.sourceImageTag :=
  ⟨by rfl, (claim_tag_by_name_or_by_id sampleParams).1 (by rfl)⟩

/-- Witness for C3 on a non-not-found query error. -/
theorem claim_create_repository_if_missing_witness :
    sampleEnvDenied.describeRepositories "myrepo" =
      Except.error { code := "AccessDeniedException"
                     str := "AccessDeniedException: not allowed" } ∧
    createRepositoryIfNeeded sampleEnvDenied "myrepo" =
      ([Event.apiDescribeRepositories "myrepo"],
        Except.error (TaskError.repositoryTestFailed
          ("Error testing for repository existence: " ++
            "AccessDeniedException: not allowed"))) :=
  ⟨by rfl, (claim_create_repository_if_missing sampleEnvDenied "myrepo").2.2
    { code := "AccessDeniedException", str := "AccessDeniedException: not allowed" }
    (by rfl) (by decide)⟩

/-- Witness for C4 on a run without `autoCreateRepository`. -/
theorem claim_repository_calls_need_flag_witness :
    sampleParamsNoCreate.autoCreateRepository = false ∧
    Event.apiGetAuthorizationToken ∈ (execute sampleEnv sampleParamsNoCreate).trace ∧
    Event.isApi Event.apiGetAuthorizationToken = true ∧
    Event.apiGetAuthorizationToken = Event.apiGetAuthorizationToken :=
  ⟨by rfl, by decide, (by rfl),
    claim_repository_calls_need_flag sampleEnv sampleParamsNoCreate rfl
      Event.apiGetAuthorizationToken (by decide) (by rfl)⟩

/-- Witness for C5 on a concrete successful run with a named output
variable. -/
theorem claim_output_variable_witness :
    (execute sampleEnv sampleParams).result = Except.ok () ∧
    sampleEnv.getAuthorizationToken =
      Except.ok { authorizationData := [sampleAuthData] } ∧
    ({ authorizationData := [sampleAuthData] } :
      AuthResponse).authorizationData.head? = some sampleAuthData ∧
    sampleEnv.parseHost sampleAuthData.proxyEndpoint =
      some "123456789012.dkr.ecr.us-east-1.amazonaws.com" ∧
    (execute sampleEnv sampleParams).trace.filter Event.isSetVariable =
      (if sampleParams.outputVariable ≠ "" then
        [Event.setVariable sampleParams.outputVariable
          (if sampleParams.pushTag ≠ "" then
            "123456789012.dkr.ecr.us-east-1.amazonaws.com" ++ "/" ++
              sampleParams.repositoryName ++ ":" ++ sampleParams.pushTag
           else "123456789012.dkr.ecr.us-east-1.amazonaws.com" ++ "/" ++
              sampleParams.repositoryName)]
       else []) :=
  ⟨by rfl, (by rfl), (by rfl), (by rfl),
    claim_output_variable sampleEnv sampleParams
      { authorizationData := [sampleAuthData] } sampleAuthData
      "123456789012.dkr.ecr.us-east-1.amazonaws.com" rfl rfl rfl (by rfl)⟩

/-- Witness for C6 on a failing authorization-token request. -/
theorem claim_auth_failure_aborts_witness :
    sampleEnvAuthFail.getAuthorizationToken =
      Except.error { code := "ServerException", str := "ServerException: boom" } ∧
    (locateDockerExecutable sampleEnvAuthFail).result = Except.ok "/usr/bin/docker" ∧
    (∃ e2, (execute sampleEnvAuthFail sampleParams).result = Except.error e2 ∧
      e2.message = "Failed to obtain authorization token to log in to ECR, error: " ++
        "ServerException: boom") :=
  ⟨by rfl, (by rfl),
    (claim_auth_failure_aborts sampleEnvAuthFail sampleParams
      { code := "ServerException", str := "ServerException: boom" } rfl).2
      "/usr/bin/docker" (by rfl)⟩

/-- Witness for C7 with the executable found under the first name. -/
theorem claim_locate_docker_executable_witness :
    sampleEnv.which "docker" = some "/usr/bin/docker" ∧
    ("/usr/bin/docker" : String) ≠ "" ∧
    locateDockerExecutable sampleEnv =
      ([Event.which "docker"], Except.ok "/usr/bin/docker") :=
  ⟨by rfl, by decide,
    ((claim_locate_docker_executable sampleEnv).1 "/usr/bin/docker" rfl (by decide)).1⟩

/-- Witness for C8 with a non-empty tag. -/
theorem claim_construct_tagged_image_name_witness :
    ("v1" : String) ≠ "" ∧
    constructTaggedImageName "myrepo" "v1" = "myrepo" ++ ":" ++ "v1" :=
  ⟨by decide, (claim_construct_tagged_image_name "myrepo" "v1").1 (by decide)⟩

/-- Witness for C9 with a decoded token containing no colon. -/
theorem claim_login_credentials_witness :
    (':' ∉ (sampleEnvNoColon.b64decode "tok").toList) ∧
    betweenFirstAndSecondColon (sampleEnvNoColon.b64decode "tok") = none :=
  ⟨by decide,
    (claim_login_credentials sampleEnvNoColon "/usr/bin/docker" "tok" "ep").2 (by decide)⟩

/-- Witness for C10 on an empty authorization-data array. -/
theorem claim_auth_data_first_element_witness :
    sampleEnvEmptyAuth.getAuthorizationToken =
      Except.ok { authorizationData := [] } ∧
    ({ authorizationData := [] } : AuthResponse).authorizationData = [] ∧
    (locateDockerExecutable sampleEnvEmptyAuth).result = Except.ok "/usr/bin/docker" ∧
    (execute sampleEnvEmptyAuth sampleParams).result =
      Except.error TaskError.undefinedProxyEndpoint :=
  ⟨by rfl, (by rfl), (by rfl),
    (claim_auth_data_first_element sampleEnvEmptyAuth).2.1 sampleParams
      { authorizationData := [] } "/usr/bin/docker" rfl rfl (by rfl)⟩

end ECRPushImage
